import Mathlib

/-
  Verification of the migrationmaster worker
  (src/worker/migrationmaster/worker.go).

  The worker drives a model migration through a sequence of phases,
  coordinating with minion agents and a target controller.  We embed the
  worker's control flow shallowly: every external call's outcome is an
  input (a field of `Env` or an event in a list), the select loops become
  folds over event lists, and the run loop takes a fuel parameter (the
  Go loop has none, but every continuing iteration strictly advances the
  phase, so any fuel at least the phase rank gives the loop's behaviour;
  an `outOfFuel` result is kept distinct so this is auditable).
-/

namespace MigrationMaster

/-- Go time.Duration, in nanoseconds (int64 in Go; the values here are
far below overflow range). -/
abbrev Duration := Int

/-- Go time.Time instants, as nanoseconds since an arbitrary epoch. -/
abbrev GoTime := Int

/-- Number of nanoseconds in time.Second. -/
def second : Duration := 1000000000

/-- Number of nanoseconds in time.Minute. -/
def minute : Duration := 60 * second

/-- maxMinionWait = 15 * time.Minute (worker.go line 39). -/
def maxMinionWait : Duration := 15 * minute

/-- minionWaitLogInterval = 30 * time.Second (worker.go line 44). -/
def minionWaitLogInterval : Duration := 30 * second

/-- Modelled from the spec: coremigration.Phase (not under src/).  The
twelve phase labels of section 3 of the spec. -/
inductive Phase where
  | QUIESCE
  | READONLY
  | PRECHECK
  | IMPORT
  | VALIDATION
  | SUCCESS
  | LOGTRANSFER
  | REAP
  | REAPFAILED
  | DONE
  | ABORT
  | ABORTDONE
deriving DecidableEq

/-- Modelled from the spec: Phase.String() of coremigration (not under
src/); the spec writes each phase by its upper-case name. -/
def Phase.phaseString : Phase → String
  | .QUIESCE => "QUIESCE"
  | .READONLY => "READONLY"
  | .PRECHECK => "PRECHECK"
  | .IMPORT => "IMPORT"
  | .VALIDATION => "VALIDATION"
  | .SUCCESS => "SUCCESS"
  | .LOGTRANSFER => "LOGTRANSFER"
  | .REAP => "REAP"
  | .REAPFAILED => "REAPFAILED"
  | .DONE => "DONE"
  | .ABORT => "ABORT"
  | .ABORTDONE => "ABORTDONE"

/-- Modelled from the spec: coremigration's Phase.IsTerminal (not under
src/); the spec (section 3) makes it true exactly for DONE, REAPFAILED
and ABORTDONE. -/
def Phase.IsTerminal : Phase → Bool
  | .DONE => true
  | .REAPFAILED => true
  | .ABORTDONE => true
  | _ => false

/-- modelHasMigrated (worker.go lines 550-552). -/
def modelHasMigrated (phase : Phase) : Bool :=
  phase == Phase.DONE || phase == Phase.REAPFAILED

/-- coremigration.TargetInfo: how to dial the target controller. -/
structure TargetInfo where
  Addrs : List String
  CACert : String
  AuthTag : String
  Password : String
deriving DecidableEq

/-- coremigration.MigrationStatus: the controller-held migration record. -/
structure MigrationStatus where
  ModelUUID : String
  Attempt : Int
  Phase : Phase
  PhaseChangedTime : GoTime
  TargetInfo : TargetInfo
deriving DecidableEq

/-- coremigration.MinionReports: the aggregate of minion reports for the
current phase of the current attempt. -/
structure MinionReports where
  MigrationId : String
  Phase : Phase
  SuccessCount : Nat
  UnknownCount : Nat
  FailedMachines : List String
  FailedUnits : List String
  SomeUnknownMachines : List String
  SomeUnknownUnits : List String
deriving DecidableEq

/-- coremigration.SerializedModel: exported model bytes plus charm and
tool references. -/
structure SerializedModel where
  Bytes : List Nat
  Charms : List String
  Tools : List String
deriving DecidableEq

/-- Go errors at the granularity the worker distinguishes them
(errors.Cause level): the sentinel errors compared against by the code,
plus formatted errors carried as their message. -/
inductive GoError where
  | errDying
  | errUninstall
  | errDoneForNow
  | errAborted
  | errMinionReportTimeout
  | errMinionReportFailed
  | notFound
  | unknownPhase (p : Phase)
  | msg (s : String)
deriving DecidableEq

/-- failFast wait policy (worker.go line 405). -/
def failFast : Bool := false

/-- waitForAll wait policy (worker.go line 406). -/
def waitForAll : Bool := true

/-- validateMinionReports (worker.go lines 473-485). -/
def validateMinionReports (reports : MinionReports) (status : MigrationStatus) :
    Option GoError :=
  let migId := status.ModelUUID ++ ":" ++ toString status.Attempt
  if reports.MigrationId ≠ migId then
    some (GoError.msg ("unexpected migration id in minion reports, got " ++
      reports.MigrationId ++ ", expected " ++ migId))
  else if reports.Phase ≠ status.Phase then
    some (GoError.msg ("minion reports phase (" ++ reports.Phase.phaseString ++
      ") does not match migration phase (" ++ status.Phase.phaseString ++ ")"))
  else
    none

/-- formatMinionTimeout (worker.go lines 487-500).  The `reports` local
of waitForMinions starts as the zero MinionReports value and is replaced
on each successful fetch; we carry it as an Option, with `none` for the
zero value, so reports.IsZero() (coremigration code not under src/,
modelled from the spec: true iff no reports have arrived yet) becomes
the `none` case.  The first branch of the source builds msg from a raw
format string whose two percent-s verbs are never substituted; the
embedding reproduces the string exactly as the code produces it. -/
def formatMinionTimeout (reports : Option MinionReports) (status : MigrationStatus) :
    String :=
  match reports with
  | none => "no agents reported in time for migration phase " ++
      status.Phase.phaseString
  | some r =>
    let msg := "%s agents failed to report in time for migration phase %s including:"
    let msg := if 0 < r.SomeUnknownMachines.length then
        msg ++ ("machines: " ++ String.intercalate ", " r.SomeUnknownMachines ++ ";")
      else msg
    let msg := if 0 < r.SomeUnknownUnits.length then
        msg ++ (" units: " ++ String.intercalate ", " r.SomeUnknownUnits)
      else msg
    msg

/-- formatMinionFailure (worker.go lines 502-511). -/
def formatMinionFailure (reports : MinionReports) : String :=
  let msg := "some agents failed " ++ reports.Phase.phaseString ++ ": "
  let msg := if 0 < reports.FailedMachines.length then
      msg ++ ("failed machines: " ++ String.intercalate ", " reports.FailedMachines ++ "; ")
    else msg
  let msg := if 0 < reports.FailedUnits.length then
      msg ++ ("failed units: " ++ String.intercalate ", " reports.FailedUnits)
    else msg
  msg

/-- One firing of the four-way select of waitForMinions (worker.go lines
429-466): the catacomb dying, the deadline timer, a minion-reports
change (carrying the result GetMinionReports then returns), or the
progress-log tick. -/
inductive MinionEvent where
  | dying
  | timeout
  | reportsChanged (fetch : Except GoError MinionReports)
  | logProgress

/-- Result of handling one select firing: either the function returns
(with nil or an error), or the loop continues with an updated `reports`
local. -/
inductive MinionStep where
  | returned (e : Option GoError)
  | step (reports : Option MinionReports)
deriving DecidableEq

/-- Body of the select of waitForMinions (worker.go lines 430-465),
acting on the current `reports` local. -/
def minionStep (status : MigrationStatus) (waitPolicy : Bool)
    (reports : Option MinionReports) (ev : MinionEvent) : MinionStep :=
  match ev with
  | .dying => .returned (some GoError.errDying)
  | .timeout =>
    -- logs formatMinionTimeout reports status
    .returned (some GoError.errMinionReportTimeout)
  | .logProgress => .step reports
  | .reportsChanged fetch =>
    match fetch with
    | .error e => .returned (some e)
    | .ok r =>
      match validateMinionReports r status with
      | some e => .returned (some e)
      | none =>
        let failures := r.FailedMachines.length + r.FailedUnits.length
        if 0 < failures ∧ waitPolicy = failFast then
          .returned (some GoError.errMinionReportFailed)
        else if r.UnknownCount = 0 then
          if 0 < failures then .returned (some GoError.errMinionReportFailed)
          else .returned none
        else
          .step (some r)

/-- Outcome of the wait: the Go function returned (`none` is a nil
error), or the event list ran out with the select still blocked. -/
inductive WaitOutcome where
  | returned (e : Option GoError)
  | blocked
deriving DecidableEq

/-- The select loop of waitForMinions (worker.go lines 429-466), driven
by a list of select firings. -/
def minionLoop (status : MigrationStatus) (waitPolicy : Bool) :
    Option MinionReports → List MinionEvent → WaitOutcome
  | _, [] => .blocked
  | reports, ev :: rest =>
    match minionStep status waitPolicy reports ev with
    | .returned e => .returned e
    | .step reports2 => minionLoop status waitPolicy reports2 rest

/-- Result of waitForMinions: the duration handed to Clock.After for the
deadline timer, alongside the loop's outcome. -/
structure MinionWaitResult where
  maxWait : Duration
  outcome : WaitOutcome
deriving DecidableEq

/-- waitForMinions (worker.go lines 411-467).  `now` is what Clock.Now()
returns at entry; `watchRes` and `addRes` are the outcomes of
WatchMinionReports and of attaching the watcher to the catacomb. -/
def waitForMinions (now : GoTime) (status : MigrationStatus) (waitPolicy : Bool)
    (watchRes addRes : Option GoError) (events : List MinionEvent) :
    MinionWaitResult :=
  let maxWait := maxMinionWait - (now - status.PhaseChangedTime)
  match watchRes with
  | some e => { maxWait := maxWait, outcome := .returned (some e) }
  | none =>
    match addRes with
    | some e => { maxWait := maxWait, outcome := .returned (some e) }
    | none => { maxWait := maxWait, outcome := minionLoop status waitPolicy none events }

/-- Result of one GetMigrationStatus call in waitForActiveMigration: a
NotFound-coded error (paired with the outcome of the Guard.Unlock call
the code then makes), any other error, or a status. -/
inductive FetchResult where
  | notFound (unlockRes : Option GoError)
  | fetchErr (e : GoError)
  | ok (st : MigrationStatus)

/-- One firing of the select of waitForActiveMigration (worker.go lines
380-384): the catacomb dying, or a watcher change (after which the code
fetches the status). -/
inductive ActiveEvent where
  | dying
  | tick (fetch : FetchResult)

instance {ε α : Type} [DecidableEq ε] [DecidableEq α] : DecidableEq (Except ε α)
  | .error a, .error b =>
    if h : a = b then isTrue (by rw [h]) else isFalse (by intro hh; cases hh; exact h rfl)
  | .error _, .ok _ => isFalse (by intro h; cases h)
  | .ok _, .error _ => isFalse (by intro h; cases h)
  | .ok a, .ok b =>
    if h : a = b then isTrue (by rw [h]) else isFalse (by intro hh; cases hh; exact h rfl)

/-- Outcome of waitForActiveMigration: returned (with a status or an
error), or the event list ran out with the select still blocked. -/
inductive ActiveOutcome where
  | returned (r : Except GoError MigrationStatus)
  | blocked
deriving DecidableEq

/-- Outcome of waitForActiveMigration plus the number of Guard.Unlock
calls it made. -/
structure ActiveResult where
  out : ActiveOutcome
  unlocks : Nat
deriving DecidableEq

/-- The watch loop of waitForActiveMigration (worker.go lines 379-401). -/
def activeLoop : List ActiveEvent → ActiveResult
  | [] => { out := .blocked, unlocks := 0 }
  | ev :: rest =>
    match ev with
    | .dying => { out := .returned (.error GoError.errDying), unlocks := 0 }
    | .tick fetch =>
      match fetch with
      | .notFound unlockRes =>
        match unlockRes with
        | some e => { out := .returned (.error e), unlocks := 1 }
        | none =>
          let r := activeLoop rest
          { out := r.out, unlocks := r.unlocks + 1 }
      | .fetchErr e => { out := .returned (.error e), unlocks := 0 }
      | .ok st =>
        if modelHasMigrated st.Phase then
          { out := .returned (.error GoError.errUninstall), unlocks := 0 }
        else if st.Phase.IsTerminal then
          activeLoop rest
        else
          { out := .returned (.ok st), unlocks := 0 }

/-- waitForActiveMigration (worker.go lines 367-402). `watchRes` is the
outcome of Facade.Watch, `addRes` of attaching the watcher to the
catacomb. -/
def waitForActiveMigration (watchRes addRes : Option GoError)
    (events : List ActiveEvent) : ActiveResult :=
  match watchRes with
  | some e => { out := .returned (.error e), unlocks := 0 }
  | none =>
    match addRes with
    | some e => { out := .returned (.error e), unlocks := 0 }
    | none => activeLoop events

/-- The outcomes of every external call a single execution of the worker
can make.  Each call site of the source has its own field (no call site
is reached twice in one execution, since no phase is revisited);
`setPhaseRes` is indexed by the phase being set and `killed` by the loop
iteration at which the post-handler catacomb check runs. -/
structure Env where
  watchRes : Option GoError
  watchAddRes : Option GoError
  activeEvents : List ActiveEvent
  lockdownRes : Option GoError
  exportRes : Except GoError SerializedModel
  importDialRes : Option GoError
  importRes : Option GoError
  importModelDialRes : Option GoError
  uploadRes : Option GoError
  validationDialRes : Option GoError
  activateRes : Option GoError
  reapRes : Option GoError
  abortDialRes : Option GoError
  abortRes : Option GoError
  setPhaseRes : Phase → Option GoError
  killed : Nat → Bool
  minionNow : GoTime
  minionWatchRes : Option GoError
  minionAddRes : Option GoError
  minionEvents : List MinionEvent

/-- doQUIESCE (worker.go lines 231-234). -/
def doQUIESCE : Phase × Option GoError := (Phase.READONLY, none)

/-- doREADONLY (worker.go lines 236-239). -/
def doREADONLY : Phase × Option GoError := (Phase.PRECHECK, none)

/-- doPRECHECK (worker.go lines 241-244). -/
def doPRECHECK : Phase × Option GoError := (Phase.IMPORT, none)

/-- doIMPORT (worker.go lines 246-294): export, dial the target
controller cluster-scoped, import the bytes, dial model-scoped, upload
binaries; on any step's error log it and return (ABORT, nil). -/
def doIMPORT (env : Env) (targetInfo : TargetInfo) (modelUUID : String) :
    Phase × Option GoError :=
  match env.exportRes with
  | .error _ => (Phase.ABORT, none)
  | .ok _serialized =>
    match env.importDialRes with
    | some _ => (Phase.ABORT, none)
    | none =>
      match env.importRes with
      | some _ => (Phase.ABORT, none)
      | none =>
        match env.importModelDialRes with
        | some _ => (Phase.ABORT, none)
        | none =>
          match env.uploadRes with
          | some _ => (Phase.ABORT, none)
          | none => (Phase.VALIDATION, none)

/-- activateModel (worker.go lines 307-317): dial cluster-scoped, then
Activate(modelUUID). -/
def activateModel (env : Env) (targetInfo : TargetInfo) (modelUUID : String) :
    Option GoError :=
  match env.validationDialRes with
  | some e => some e
  | none => env.activateRes

/-- doVALIDATION (worker.go lines 296-305). -/
def doVALIDATION (env : Env) (targetInfo : TargetInfo) (modelUUID : String) :
    Phase × Option GoError :=
  match activateModel env targetInfo modelUUID with
  | some _ => (Phase.ABORT, none)
  | none => (Phase.SUCCESS, none)

/-- Result of a phase handler as the run loop sees it: a next phase and
error, or (only possible for doSUCCESS) a wait that never resolved
because its event list ran out. -/
inductive HandlerRes where
  | next (p : Phase) (e : Option GoError)
  | stuck
deriving DecidableEq

/-- doSUCCESS (worker.go lines 319-331): wait for minions under
waitForAll; a nil, errMinionReportFailed or errMinionReportTimeout
outcome proceeds to LOGTRANSFER; any other error is propagated. -/
def doSUCCESS (env : Env) (status : MigrationStatus) : HandlerRes :=
  match (waitForMinions env.minionNow status waitForAll
      env.minionWatchRes env.minionAddRes env.minionEvents).outcome with
  | .blocked => .stuck
  | .returned e =>
    match e with
    | none => .next Phase.LOGTRANSFER none
    | some GoError.errMinionReportFailed => .next Phase.LOGTRANSFER none
    | some GoError.errMinionReportTimeout => .next Phase.LOGTRANSFER none
    | some e2 => .next Phase.SUCCESS (some e2)

/-- doLOGTRANSFER (worker.go lines 333-336). -/
def doLOGTRANSFER : Phase × Option GoError := (Phase.REAP, none)

/-- doREAP (worker.go lines 338-344). -/
def doREAP (env : Env) : Phase × Option GoError :=
  match env.reapRes with
  | some e => (Phase.REAPFAILED, some e)
  | none => (Phase.DONE, none)

/-- removeImportedModel (worker.go lines 355-365): dial cluster-scoped,
then Abort(modelUUID). -/
def removeImportedModel (env : Env) (targetInfo : TargetInfo) (modelUUID : String) :
    Option GoError :=
  match env.abortDialRes with
  | some e => some e
  | none => env.abortRes

/-- doABORT (worker.go lines 346-353): a removeImportedModel failure is
logged and swallowed; always returns (ABORTDONE, nil). -/
def doABORT (env : Env) (targetInfo : TargetInfo) (modelUUID : String) :
    Phase × Option GoError :=
  let _err := removeImportedModel env targetInfo modelUUID
  (Phase.ABORTDONE, none)

/-- The switch of the run loop (worker.go lines 169-190), dispatching on
the current phase; the default arm is the unknown-phase fatal error. -/
def dispatch (env : Env) (st : MigrationStatus) : HandlerRes :=
  match st.Phase with
  | .QUIESCE => .next doQUIESCE.1 doQUIESCE.2
  | .READONLY => .next doREADONLY.1 doREADONLY.2
  | .PRECHECK => .next doPRECHECK.1 doPRECHECK.2
  | .IMPORT =>
    let r := doIMPORT env st.TargetInfo st.ModelUUID
    .next r.1 r.2
  | .VALIDATION =>
    let r := doVALIDATION env st.TargetInfo st.ModelUUID
    .next r.1 r.2
  | .SUCCESS => doSUCCESS env st
  | .LOGTRANSFER => .next doLOGTRANSFER.1 doLOGTRANSFER.2
  | .REAP =>
    let r := doREAP env
    .next r.1 r.2
  | .ABORT =>
    let r := doABORT env st.TargetInfo st.ModelUUID
    .next r.1 r.2
  | p => .next p (some (GoError.unknownPhase p))

/-- How an execution of the run loop ended: the error the Go function
returned, or an artifact of the embedding (the minion wait's event list
ran out, or the fuel did). -/
inductive RunExit where
  | err (e : GoError)
  | blocked
  | outOfFuel
deriving DecidableEq

/-- Observable trace of a run-loop execution: its exit, the phases
passed to Facade.SetPhase in order, and the statuses passed to
waitForMinions (one per SUCCESS-phase iteration). -/
structure RunTrace where
  exit : RunExit
  setPhaseCalls : List Phase
  waitStatuses : List MigrationStatus
deriving DecidableEq

/-- The phase loop of Worker.run (worker.go lines 166-219): run the
handler for the current phase; on a handler error exit with it; if
killed exit dying; persist the next phase via SetPhase (exiting on
failure); update only the Phase field of the in-memory status; exit
uninstall on a migrated phase, ErrDoneForNow on another terminal phase;
otherwise loop. -/
def runLoop (env : Env) : Nat → Nat → MigrationStatus → RunTrace
  | 0, _, _ => { exit := .outOfFuel, setPhaseCalls := [], waitStatuses := [] }
  | fuel + 1, iter, st =>
    let waits := if st.Phase = Phase.SUCCESS then [st] else []
    match dispatch env st with
    | .stuck => { exit := .blocked, setPhaseCalls := [], waitStatuses := waits }
    | .next p e =>
      match e with
      | some err => { exit := .err err, setPhaseCalls := [], waitStatuses := waits }
      | none =>
        if env.killed iter then
          { exit := .err GoError.errDying, setPhaseCalls := [], waitStatuses := waits }
        else
          match env.setPhaseRes p with
          | some err =>
            { exit := .err err, setPhaseCalls := [p], waitStatuses := waits }
          | none =>
            if modelHasMigrated p then
              { exit := .err GoError.errUninstall, setPhaseCalls := [p],
                waitStatuses := waits }
            else if p.IsTerminal then
              { exit := .err GoError.errDoneForNow, setPhaseCalls := [p],
                waitStatuses := waits }
            else
              let rest := runLoop env fuel (iter + 1) { st with Phase := p }
              { exit := rest.exit, setPhaseCalls := p :: rest.setPhaseCalls,
                waitStatuses := waits ++ rest.waitStatuses }

/-- Worker.run (worker.go lines 150-220): wait for an active migration,
lock down the fortress (an ErrAborted cause becomes the dying error),
then enter the phase loop. -/
def run (env : Env) (fuel : Nat) : RunTrace :=
  match (waitForActiveMigration env.watchRes env.watchAddRes env.activeEvents).out with
  | .blocked => { exit := .blocked, setPhaseCalls := [], waitStatuses := [] }
  | .returned (.error e) => { exit := .err e, setPhaseCalls := [], waitStatuses := [] }
  | .returned (.ok st) =>
    match env.lockdownRes with
    | some e =>
      if e = GoError.errAborted then
        { exit := .err GoError.errDying, setPhaseCalls := [], waitStatuses := [] }
      else
        { exit := .err e, setPhaseCalls := [], waitStatuses := [] }
    | none => runLoop env fuel 0 st

/-! Concrete fixtures used by witnesses. -/

/-- A target-controller record with empty credentials. -/
def ti0 : TargetInfo := { Addrs := [], CACert := "", AuthTag := "", Password := "" }

/-- A migration status for model "m1", attempt 1, at the given phase. -/
def mkStatus (p : Phase) : MigrationStatus :=
  { ModelUUID := "m1", Attempt := 1, Phase := p, PhaseChangedTime := 0, TargetInfo := ti0 }

/-- A minion report aggregate for "m1:1" at SUCCESS with the given
counts and failure lists. -/
def mkReport (unknown : Nat) (failedMachines failedUnits : List String) : MinionReports :=
  { MigrationId := "m1:1", Phase := Phase.SUCCESS, SuccessCount := 5,
    UnknownCount := unknown, FailedMachines := failedMachines,
    FailedUnits := failedUnits, SomeUnknownMachines := [], SomeUnknownUnits := [] }

/-- An environment in which every external call succeeds and a single
all-success minion report arrives during the wait. -/
def baseEnv : Env :=
  { watchRes := none, watchAddRes := none, activeEvents := [], lockdownRes := none,
    exportRes := Except.ok { Bytes := [], Charms := [], Tools := [] },
    importDialRes := none, importRes := none, importModelDialRes := none,
    uploadRes := none, validationDialRes := none, activateRes := none,
    reapRes := none, abortDialRes := none, abortRes := none,
    setPhaseRes := fun _ => none, killed := fun _ => false,
    minionNow := 0, minionWatchRes := none, minionAddRes := none,
    minionEvents := [MinionEvent.reportsChanged (Except.ok (mkReport 0 [] []))] }

/-- An environment whose first status fetch finds an externally
completed migration (Phase DONE). -/
def doneBootEnv : Env :=
  { baseEnv with
    activeEvents := [ActiveEvent.tick (FetchResult.ok (mkStatus Phase.DONE))] }

/-- A report aggregate with two agents still unknown, sampling machine
"m0" and unit "u1" as the silent agents. -/
def silentReport : MinionReports :=
  { MigrationId := "m1:1", Phase := Phase.SUCCESS, SuccessCount := 3,
    UnknownCount := 2, FailedMachines := [], FailedUnits := [],
    SomeUnknownMachines := ["m0"], SomeUnknownUnits := ["u1"] }

/-! Helper lemmas. -/

theorem waitForMinions_maxWait_eq (now : GoTime) (status : MigrationStatus)
    (waitPolicy : Bool) (watchRes addRes : Option GoError)
    (events : List MinionEvent) :
    (waitForMinions now status waitPolicy watchRes addRes events).maxWait
      = maxMinionWait - (now - status.PhaseChangedTime) := by
  cases watchRes <;> cases addRes <;> rfl

/-! Claim theorems. -/

/-- Claim C5: for every migration status with PhaseChangedTime t0 and
Clock.Now() = t1 at entry to the minion wait, the timeout duration
handed to Clock.After equals maxMinionWait - (t1 - t0), with
maxMinionWait fifteen minutes, so the deadline fires at
t0 + maxMinionWait rather than t1 + maxMinionWait. -/
theorem minion_wait_deadline_anchored (t1 : GoTime) (status : MigrationStatus)
    (waitPolicy : Bool) (watchRes addRes : Option GoError)
    (events : List MinionEvent) :
    (waitForMinions t1 status waitPolicy watchRes addRes events).maxWait
        = maxMinionWait - (t1 - status.PhaseChangedTime)
      ∧ maxMinionWait = 15 * minute
      ∧ t1 + (waitForMinions t1 status waitPolicy watchRes addRes events).maxWait
        = status.PhaseChangedTime + maxMinionWait := by
  refine ⟨waitForMinions_maxWait_eq t1 status waitPolicy watchRes addRes events, rfl, ?_⟩
  rw [waitForMinions_maxWait_eq]
  ring

/-- Claim C6: a fetched report whose MigrationId differs from
"ModelUUID:Attempt" or whose Phase differs from the status phase makes
the minion wait return a validation error immediately, regardless of the
remaining events; the error is neither the failure nor the timeout
sentinel, and no success resolution happens. -/
theorem minion_mismatch_rejected (r : MinionReports) (st : MigrationStatus)
    (cur : Option MinionReports) (policy : Bool) (evs : List MinionEvent)
    (hmis : r.MigrationId ≠ st.ModelUUID ++ ":" ++ toString st.Attempt
      ∨ r.Phase ≠ st.Phase) :
    ∃ s, validateMinionReports r st = some (GoError.msg s)
      ∧ minionStep st policy cur (MinionEvent.reportsChanged (Except.ok r))
          = MinionStep.returned (some (GoError.msg s))
      ∧ minionLoop st policy cur (MinionEvent.reportsChanged (Except.ok r) :: evs)
          = WaitOutcome.returned (some (GoError.msg s))
      ∧ GoError.msg s ≠ GoError.errMinionReportFailed
      ∧ GoError.msg s ≠ GoError.errMinionReportTimeout := by
  by_cases hid : r.MigrationId = st.ModelUUID ++ ":" ++ toString st.Attempt
  · have hph : r.Phase ≠ st.Phase := hmis.resolve_left (not_not_intro hid)
    have hv : validateMinionReports r st = some (GoError.msg
        ("minion reports phase (" ++ r.Phase.phaseString ++
          ") does not match migration phase (" ++ st.Phase.phaseString ++ ")")) := by
      simp [validateMinionReports, hid, hph]
    exact ⟨_, hv, by simp [minionStep, hv], by simp [minionLoop, minionStep, hv],
      by simp, by simp⟩
  · have hv : validateMinionReports r st = some (GoError.msg
        ("unexpected migration id in minion reports, got " ++ r.MigrationId ++
          ", expected " ++ (st.ModelUUID ++ ":" ++ toString st.Attempt))) := by
      simp [validateMinionReports, hid]
    exact ⟨_, hv, by simp [minionStep, hv], by simp [minionLoop, minionStep, hv],
      by simp, by simp⟩

/-- Witness for C6: a report with a wrong migration id is rejected. -/
theorem minion_mismatch_rejected_witness :
    ((mkReport 0 [] []).MigrationId ≠
        (mkStatus Phase.QUIESCE).ModelUUID ++ ":" ++ toString (mkStatus Phase.QUIESCE).Attempt
      ∨ (mkReport 0 [] []).Phase ≠ (mkStatus Phase.QUIESCE).Phase)
    ∧ ∃ s, validateMinionReports (mkReport 0 [] []) (mkStatus Phase.QUIESCE)
          = some (GoError.msg s)
      ∧ minionStep (mkStatus Phase.QUIESCE) waitForAll none
          (MinionEvent.reportsChanged (Except.ok (mkReport 0 [] [])))
          = MinionStep.returned (some (GoError.msg s))
      ∧ minionLoop (mkStatus Phase.QUIESCE) waitForAll none
          (MinionEvent.reportsChanged (Except.ok (mkReport 0 [] [])) :: [])
          = WaitOutcome.returned (some (GoError.msg s))
      ∧ GoError.msg s ≠ GoError.errMinionReportFailed
      ∧ GoError.msg s ≠ GoError.errMinionReportTimeout :=
  ⟨Or.inr (by decide),
    minion_mismatch_rejected (mkReport 0 [] []) (mkStatus Phase.QUIESCE) none
      waitForAll [] (Or.inr (by decide))⟩

/-- Claim C7: under failFast a valid report with any failed machine or unit
resolves the wait to errMinionReportFailed at once; under waitForAll a
valid report with UnknownCount nonzero only updates the cached reports
and the wait continues, while UnknownCount zero resolves it, to
errMinionReportFailed when anything failed and to nil otherwise. -/
theorem minion_policy_resolution (r : MinionReports) (st : MigrationStatus)
    (cur : Option MinionReports)
    (hvalid : validateMinionReports r st = none) :
    (0 < r.FailedMachines.length + r.FailedUnits.length →
      minionStep st failFast cur (MinionEvent.reportsChanged (Except.ok r))
        = MinionStep.returned (some GoError.errMinionReportFailed))
    ∧ (r.UnknownCount ≠ 0 →
      minionStep st waitForAll cur (MinionEvent.reportsChanged (Except.ok r))
        = MinionStep.step (some r))
    ∧ (r.UnknownCount = 0 → 0 < r.FailedMachines.length + r.FailedUnits.length →
      minionStep st waitForAll cur (MinionEvent.reportsChanged (Except.ok r))
        = MinionStep.returned (some GoError.errMinionReportFailed))
    ∧ (r.UnknownCount = 0 → r.FailedMachines = [] → r.FailedUnits = [] →
      minionStep st waitForAll cur (MinionEvent.reportsChanged (Except.ok r))
        = MinionStep.returned none) := by
  refine ⟨?_, ?_, ?_, ?_⟩
  · intro h
    simp [minionStep, hvalid, failFast, h]
  · intro h
    simp [minionStep, hvalid, waitForAll, failFast, h]
  · intro h hf
    simp [minionStep, hvalid, waitForAll, failFast, h, hf]
  · intro h hm hu
    simp [minionStep, hvalid, waitForAll, failFast, h, hm, hu]

/-- Witness for C7: the four resolutions at concrete valid reports. -/
theorem minion_policy_resolution_witness :
    minionStep (mkStatus Phase.SUCCESS) failFast none
        (MinionEvent.reportsChanged (Except.ok (mkReport 3 ["m3"] [])))
      = MinionStep.returned (some GoError.errMinionReportFailed)
    ∧ minionStep (mkStatus Phase.SUCCESS) waitForAll none
        (MinionEvent.reportsChanged (Except.ok (mkReport 3 [] [])))
      = MinionStep.step (some (mkReport 3 [] []))
    ∧ minionStep (mkStatus Phase.SUCCESS) waitForAll none
        (MinionEvent.reportsChanged (Except.ok (mkReport 0 [] ["u7"])))
      = MinionStep.returned (some GoError.errMinionReportFailed)
    ∧ minionStep (mkStatus Phase.SUCCESS) waitForAll none
        (MinionEvent.reportsChanged (Except.ok (mkReport 0 [] [])))
      = MinionStep.returned none :=
  ⟨(minion_policy_resolution (mkReport 3 ["m3"] []) (mkStatus Phase.SUCCESS) none
      (by decide)).1 (by decide),
    (minion_policy_resolution (mkReport 3 [] []) (mkStatus Phase.SUCCESS) none
      (by decide)).2.1 (by decide),
    (minion_policy_resolution (mkReport 0 [] ["u7"]) (mkStatus Phase.SUCCESS) none
      (by decide)).2.2.1 (by decide) (by decide),
    (minion_policy_resolution (mkReport 0 [] []) (mkStatus Phase.SUCCESS) none
      (by decide)).2.2.2 (by decide) (by decide) (by decide)⟩

/-- Claim C9 (code bug): at the minion-wait deadline with reports present, the
code logs the raw template whose two percent-s verbs were never
substituted, so the phase is not named in the message; the zero-reports
message and the errMinionReportTimeout return behave as claimed.  The
status below is at SUCCESS and the cached reports sample machine "m0"
and unit "u1". -/
theorem minion_timeout_message_unfilled :
    formatMinionTimeout (some silentReport) (mkStatus Phase.SUCCESS)
      = "%s agents failed to report in time for migration phase %s including:machines: m0; units: u1"
    ∧ formatMinionTimeout none (mkStatus Phase.SUCCESS)
      = "no agents reported in time for migration phase SUCCESS"
    ∧ minionStep (mkStatus Phase.SUCCESS) waitForAll (some silentReport)
        MinionEvent.timeout
      = MinionStep.returned (some GoError.errMinionReportTimeout) := by
  refine ⟨by decide, by decide, rfl⟩

/-- Claim C8: in waitForActiveMigration, a NotFound status fetch triggers a
Guard.Unlock call and the wait continues with the next tick; a fetched
status whose phase has migrated makes the worker exit-uninstall at once
(and run then performs no SetPhase and runs no handler); an ABORTDONE
status is skipped; a non-terminal status is returned. -/
theorem active_wait_behaviour (st : MigrationStatus) (evs : List ActiveEvent)
    (env : Env) (fuel : Nat) :
    (waitForActiveMigration none none
        (ActiveEvent.tick (FetchResult.notFound none) :: evs)
      = { out := (waitForActiveMigration none none evs).out,
          unlocks := (waitForActiveMigration none none evs).unlocks + 1 })
    ∧ (modelHasMigrated st.Phase = true →
      waitForActiveMigration none none (ActiveEvent.tick (FetchResult.ok st) :: evs)
        = { out := ActiveOutcome.returned (Except.error GoError.errUninstall),
            unlocks := 0 })
    ∧ (st.Phase = Phase.ABORTDONE →
      waitForActiveMigration none none (ActiveEvent.tick (FetchResult.ok st) :: evs)
        = waitForActiveMigration none none evs)
    ∧ (st.Phase.IsTerminal = false →
      waitForActiveMigration none none (ActiveEvent.tick (FetchResult.ok st) :: evs)
        = { out := ActiveOutcome.returned (Except.ok st), unlocks := 0 })
    ∧ (env.watchRes = none → env.watchAddRes = none →
      env.activeEvents = ActiveEvent.tick (FetchResult.ok st) :: evs →
      modelHasMigrated st.Phase = true →
      run env fuel
        = { exit := RunExit.err GoError.errUninstall, setPhaseCalls := [],
            waitStatuses := [] }) := by
  refine ⟨?_, ?_, ?_, ?_, ?_⟩
  · simp [waitForActiveMigration, activeLoop]
  · intro h
    simp [waitForActiveMigration, activeLoop, h]
  · intro h
    simp [waitForActiveMigration, activeLoop, h, modelHasMigrated, Phase.IsTerminal]
  · intro h
    cases hp : st.Phase <;>
      simp_all [waitForActiveMigration, activeLoop, modelHasMigrated, Phase.IsTerminal]
  · intro h1 h2 h3 h4
    simp [run, waitForActiveMigration, activeLoop, h1, h2, h3, h4]

/-- Witness for C8: the four behaviours at concrete statuses and event
lists, and the run exit for an externally completed migration. -/
theorem active_wait_behaviour_witness :
    (waitForActiveMigration none none
        (ActiveEvent.tick (FetchResult.notFound none) :: [])
      = { out := (waitForActiveMigration none none []).out,
          unlocks := (waitForActiveMigration none none []).unlocks + 1 })
    ∧ (waitForActiveMigration none none
        (ActiveEvent.tick (FetchResult.ok (mkStatus Phase.DONE)) :: [])
      = { out := ActiveOutcome.returned (Except.error GoError.errUninstall),
          unlocks := 0 })
    ∧ (waitForActiveMigration none none
        (ActiveEvent.tick (FetchResult.ok (mkStatus Phase.ABORTDONE)) :: [])
      = waitForActiveMigration none none [])
    ∧ (waitForActiveMigration none none
        (ActiveEvent.tick (FetchResult.ok (mkStatus Phase.QUIESCE)) :: [])
      = { out := ActiveOutcome.returned (Except.ok (mkStatus Phase.QUIESCE)),
          unlocks := 0 })
    ∧ run doneBootEnv 3
      = { exit := RunExit.err GoError.errUninstall, setPhaseCalls := [],
          waitStatuses := [] } :=
  ⟨(active_wait_behaviour (mkStatus Phase.QUIESCE) [] baseEnv 0).1,
    (active_wait_behaviour (mkStatus Phase.DONE) [] baseEnv 0).2.1 rfl,
    (active_wait_behaviour (mkStatus Phase.ABORTDONE) [] baseEnv 0).2.2.1 rfl,
    (active_wait_behaviour (mkStatus Phase.QUIESCE) [] baseEnv 0).2.2.2.1 rfl,
    (active_wait_behaviour (mkStatus Phase.DONE) [] doneBootEnv 3).2.2.2.2
      rfl rfl rfl rfl⟩

theorem runLoop_step (env : Env) (fuel iter : Nat) (st : MigrationStatus) (p : Phase)
    (hd : dispatch env st = HandlerRes.next p none)
    (hk : env.killed iter = false)
    (hsp : env.setPhaseRes p = none)
    (hm : modelHasMigrated p = false)
    (ht : p.IsTerminal = false) :
    runLoop env (fuel + 1) iter st =
      { exit := (runLoop env fuel (iter + 1) { st with Phase := p }).exit,
        setPhaseCalls :=
          p :: (runLoop env fuel (iter + 1) { st with Phase := p }).setPhaseCalls,
        waitStatuses := (if st.Phase = Phase.SUCCESS then [st] else [])
          ++ (runLoop env fuel (iter + 1) { st with Phase := p }).waitStatuses } := by
  simp [runLoop, hd, hk, hsp, hm, ht]

theorem runLoop_exit_migrated (env : Env) (fuel iter : Nat) (st : MigrationStatus)
    (p : Phase)
    (hd : dispatch env st = HandlerRes.next p none)
    (hk : env.killed iter = false)
    (hsp : env.setPhaseRes p = none)
    (hm : modelHasMigrated p = true) :
    runLoop env (fuel + 1) iter st =
      { exit := RunExit.err GoError.errUninstall, setPhaseCalls := [p],
        waitStatuses := if st.Phase = Phase.SUCCESS then [st] else [] } := by
  simp [runLoop, hd, hk, hsp, hm]

theorem runLoop_exit_terminal (env : Env) (fuel iter : Nat) (st : MigrationStatus)
    (p : Phase)
    (hd : dispatch env st = HandlerRes.next p none)
    (hk : env.killed iter = false)
    (hsp : env.setPhaseRes p = none)
    (hm : modelHasMigrated p = false)
    (ht : p.IsTerminal = true) :
    runLoop env (fuel + 1) iter st =
      { exit := RunExit.err GoError.errDoneForNow, setPhaseCalls := [p],
        waitStatuses := if st.Phase = Phase.SUCCESS then [st] else [] } := by
  simp [runLoop, hd, hk, hsp, hm, ht]

theorem runLoop_exit_err (env : Env) (fuel iter : Nat) (st : MigrationStatus)
    (p : Phase) (e : GoError)
    (hd : dispatch env st = HandlerRes.next p (some e)) :
    runLoop env (fuel + 1) iter st =
      { exit := RunExit.err e, setPhaseCalls := [],
        waitStatuses := if st.Phase = Phase.SUCCESS then [st] else [] } := by
  simp [runLoop, hd]

/-- Claim C1: from persisted phase QUIESCE with every external call
succeeding, and one valid all-success minion report arriving during the
SUCCESS wait, the run loop persists via SetPhase exactly READONLY,
PRECHECK, IMPORT, VALIDATION, SUCCESS, LOGTRANSFER, REAP, DONE in that
order and exits with the uninstall indicator, running no handler after
DONE. -/
theorem happy_path_trace (env : Env) (st : MigrationStatus) (fuel : Nat)
    (m : SerializedModel) (r : MinionReports)
    (hphase : st.Phase = Phase.QUIESCE)
    (hexp : env.exportRes = Except.ok m)
    (hdial1 : env.importDialRes = none) (himp : env.importRes = none)
    (hdial2 : env.importModelDialRes = none) (hup : env.uploadRes = none)
    (hvd : env.validationDialRes = none) (hact : env.activateRes = none)
    (hreap : env.reapRes = none)
    (hsp : ∀ p, env.setPhaseRes p = none)
    (hk : ∀ n, env.killed n = false)
    (hmw : env.minionWatchRes = none) (hma : env.minionAddRes = none)
    (hev : env.minionEvents = [MinionEvent.reportsChanged (Except.ok r)])
    (hrid : r.MigrationId = st.ModelUUID ++ ":" ++ toString st.Attempt)
    (hrph : r.Phase = Phase.SUCCESS)
    (hrunk : r.UnknownCount = 0) (hrfm : r.FailedMachines = [])
    (hrfu : r.FailedUnits = []) :
    (runLoop env (fuel + 8) 0 st).setPhaseCalls
        = [Phase.READONLY, Phase.PRECHECK, Phase.IMPORT, Phase.VALIDATION,
            Phase.SUCCESS, Phase.LOGTRANSFER, Phase.REAP, Phase.DONE]
      ∧ (runLoop env (fuel + 8) 0 st).exit = RunExit.err GoError.errUninstall := by
  have e1 : dispatch env st = HandlerRes.next Phase.READONLY none := by
    simp [dispatch, hphase, doQUIESCE]
  have e2 : dispatch env { st with Phase := Phase.READONLY }
      = HandlerRes.next Phase.PRECHECK none := by
    simp [dispatch, doREADONLY]
  have e3 : dispatch env { st with Phase := Phase.PRECHECK }
      = HandlerRes.next Phase.IMPORT none := by
    simp [dispatch, doPRECHECK]
  have e4 : dispatch env { st with Phase := Phase.IMPORT }
      = HandlerRes.next Phase.VALIDATION none := by
    simp [dispatch, doIMPORT, hexp, hdial1, himp, hdial2, hup]
  have e5 : dispatch env { st with Phase := Phase.VALIDATION }
      = HandlerRes.next Phase.SUCCESS none := by
    simp [dispatch, doVALIDATION, activateModel, hvd, hact]
  have e6 : dispatch env { st with Phase := Phase.SUCCESS }
      = HandlerRes.next Phase.LOGTRANSFER none := by
    simp [dispatch, doSUCCESS, waitForMinions, hmw, hma, hev, minionLoop, minionStep,
      validateMinionReports, hrid, hrph, hrunk, hrfm, hrfu, waitForAll, failFast]
  have e7 : dispatch env { st with Phase := Phase.LOGTRANSFER }
      = HandlerRes.next Phase.REAP none := by
    simp [dispatch, doLOGTRANSFER]
  have e8 : dispatch env { st with Phase := Phase.REAP }
      = HandlerRes.next Phase.DONE none := by
    simp [dispatch, doREAP, hreap]
  rw [show fuel + 8 = (fuel + 7) + 1 from rfl,
    runLoop_step env (fuel + 7) 0 st Phase.READONLY e1 (hk 0) (hsp _) rfl rfl]
  rw [show fuel + 7 = (fuel + 6) + 1 from rfl,
    runLoop_step env (fuel + 6) (0 + 1) { st with Phase := Phase.READONLY }
      Phase.PRECHECK e2 (hk _) (hsp _) rfl rfl]
  rw [show fuel + 6 = (fuel + 5) + 1 from rfl,
    runLoop_step env (fuel + 5) (0 + 1 + 1) { st with Phase := Phase.PRECHECK }
      Phase.IMPORT e3 (hk _) (hsp _) rfl rfl]
  rw [show fuel + 5 = (fuel + 4) + 1 from rfl,
    runLoop_step env (fuel + 4) (0 + 1 + 1 + 1) { st with Phase := Phase.IMPORT }
      Phase.VALIDATION e4 (hk _) (hsp _) rfl rfl]
  rw [show fuel + 4 = (fuel + 3) + 1 from rfl,
    runLoop_step env (fuel + 3) (0 + 1 + 1 + 1 + 1) { st with Phase := Phase.VALIDATION }
      Phase.SUCCESS e5 (hk _) (hsp _) rfl rfl]
  rw [show fuel + 3 = (fuel + 2) + 1 from rfl,
    runLoop_step env (fuel + 2) (0 + 1 + 1 + 1 + 1 + 1) { st with Phase := Phase.SUCCESS }
      Phase.LOGTRANSFER e6 (hk _) (hsp _) rfl rfl]
  rw [show fuel + 2 = (fuel + 1) + 1 from rfl,
    runLoop_step env (fuel + 1) (0 + 1 + 1 + 1 + 1 + 1 + 1)
      { st with Phase := Phase.LOGTRANSFER } Phase.REAP e7 (hk _) (hsp _) rfl rfl]
  rw [runLoop_exit_migrated env fuel (0 + 1 + 1 + 1 + 1 + 1 + 1 + 1)
      { st with Phase := Phase.REAP } Phase.DONE e8 (hk _) (hsp _) rfl]
  simp

/-- Witness for C1: the happy path evaluated in the all-success
environment. -/
theorem happy_path_trace_witness :
    (runLoop baseEnv (0 + 8) 0 (mkStatus Phase.QUIESCE)).setPhaseCalls
        = [Phase.READONLY, Phase.PRECHECK, Phase.IMPORT, Phase.VALIDATION,
            Phase.SUCCESS, Phase.LOGTRANSFER, Phase.REAP, Phase.DONE]
      ∧ (runLoop baseEnv (0 + 8) 0 (mkStatus Phase.QUIESCE)).exit
        = RunExit.err GoError.errUninstall :=
  happy_path_trace baseEnv (mkStatus Phase.QUIESCE) 0
    { Bytes := [], Charms := [], Tools := [] } (mkReport 0 [] [])
    rfl rfl rfl rfl rfl rfl rfl rfl rfl (fun _ => rfl) (fun _ => rfl) rfl rfl rfl
    (by decide) rfl rfl rfl rfl

/-- An environment in which Reap fails. -/
def reapFailEnv : Env := { baseEnv with reapRes := some (GoError.msg "boom") }

/-- Claim C2 (code bug): when Reap fails, doREAP does return (REAPFAILED,
error), but because the error is non-nil the run loop exits with it at
once: SetPhase(REAPFAILED) is never called and the exit is the Reap
error, not the uninstall indicator, contrary to the run loop's own
contract comment that error phases such as REAPFAILED are transitioned
to. -/
theorem reap_error_exits_without_persist :
    doREAP reapFailEnv = (Phase.REAPFAILED, some (GoError.msg "boom"))
    ∧ runLoop reapFailEnv 1 0 (mkStatus Phase.REAP)
      = { exit := RunExit.err (GoError.msg "boom"), setPhaseCalls := [],
          waitStatuses := [] } := by
  refine ⟨rfl, by decide⟩

/-- An environment whose minion wait sees only the shutdown signal. -/
def dyingEnv : Env := { baseEnv with minionEvents := [MinionEvent.dying] }

/-- An environment whose minion wait sees only the deadline firing. -/
def timeoutEnv : Env := { baseEnv with minionEvents := [MinionEvent.timeout] }

/-- Claim C3: a SUCCESS-phase minion wait resolving to nil,
errMinionReportFailed or errMinionReportTimeout makes the SUCCESS
handler return (LOGTRANSFER, nil); any other error from the wait is
propagated and the driver exits with it, persisting no phase. -/
theorem success_wait_outcome_mapping (env : Env) (st : MigrationStatus)
    (fuel iter : Nat) (e : GoError)
    (hst : st.Phase = Phase.SUCCESS) :
    ((waitForMinions env.minionNow st waitForAll env.minionWatchRes
          env.minionAddRes env.minionEvents).outcome = WaitOutcome.returned none
        ∨ (waitForMinions env.minionNow st waitForAll env.minionWatchRes
          env.minionAddRes env.minionEvents).outcome
          = WaitOutcome.returned (some GoError.errMinionReportFailed)
        ∨ (waitForMinions env.minionNow st waitForAll env.minionWatchRes
          env.minionAddRes env.minionEvents).outcome
          = WaitOutcome.returned (some GoError.errMinionReportTimeout) →
      doSUCCESS env st = HandlerRes.next Phase.LOGTRANSFER none)
    ∧ ((waitForMinions env.minionNow st waitForAll env.minionWatchRes
          env.minionAddRes env.minionEvents).outcome = WaitOutcome.returned (some e) →
      e ≠ GoError.errMinionReportFailed → e ≠ GoError.errMinionReportTimeout →
      doSUCCESS env st = HandlerRes.next Phase.SUCCESS (some e)
      ∧ runLoop env (fuel + 1) iter st
        = { exit := RunExit.err e, setPhaseCalls := [],
            waitStatuses := [st] }) := by
  constructor
  · intro h
    rcases h with h | h | h <;> simp [doSUCCESS, h]
  · intro h h1 h2
    have hd : doSUCCESS env st = HandlerRes.next Phase.SUCCESS (some e) := by
      cases e <;> simp_all [doSUCCESS]
    refine ⟨hd, ?_⟩
    rw [runLoop_exit_err env fuel iter st Phase.SUCCESS e (by simp [dispatch, hst, hd])]
    simp [hst]

/-- Witness for C3: a timeout outcome is tolerated, a shutdown outcome is
propagated with no phase persisted. -/
theorem success_wait_outcome_mapping_witness :
    doSUCCESS timeoutEnv (mkStatus Phase.SUCCESS)
      = HandlerRes.next Phase.LOGTRANSFER none
    ∧ doSUCCESS dyingEnv (mkStatus Phase.SUCCESS)
      = HandlerRes.next Phase.SUCCESS (some GoError.errDying)
    ∧ runLoop dyingEnv (0 + 1) 0 (mkStatus Phase.SUCCESS)
      = { exit := RunExit.err GoError.errDying, setPhaseCalls := [],
          waitStatuses := [mkStatus Phase.SUCCESS] } :=
  ⟨(success_wait_outcome_mapping timeoutEnv (mkStatus Phase.SUCCESS) 0 0
      GoError.errDying rfl).1 (Or.inr (Or.inr rfl)),
    ((success_wait_outcome_mapping dyingEnv (mkStatus Phase.SUCCESS) 0 0
      GoError.errDying rfl).2 rfl (by decide) (by decide)).1,
    ((success_wait_outcome_mapping dyingEnv (mkStatus Phase.SUCCESS) 0 0
      GoError.errDying rfl).2 rfl (by decide) (by decide)).2⟩

theorem doIMPORT_aborts (env : Env) (ti : TargetInfo) (mu : String)
    (hfail : (∃ e, env.exportRes = Except.error e) ∨ env.importDialRes ≠ none
      ∨ env.importRes ≠ none ∨ env.importModelDialRes ≠ none
      ∨ env.uploadRes ≠ none) :
    doIMPORT env ti mu = (Phase.ABORT, none) := by
  cases hexp : env.exportRes with
  | error e => simp [doIMPORT, hexp]
  | ok m =>
    cases h1 : env.importDialRes with
    | some e => simp [doIMPORT, hexp, h1]
    | none =>
      cases h2 : env.importRes with
      | some e => simp [doIMPORT, hexp, h1, h2]
      | none =>
        cases h3 : env.importModelDialRes with
        | some e => simp [doIMPORT, hexp, h1, h2, h3]
        | none =>
          cases h4 : env.uploadRes with
          | some e => simp [doIMPORT, hexp, h1, h2, h3, h4]
          | none =>
            rcases hfail with ⟨e, he⟩ | h | h | h | h <;> simp_all

/-- Claim C4: any failing IMPORT step makes the handler return (ABORT, nil)
without propagating the error, the ABORT handler always returns
(ABORTDONE, nil) whatever its own dial and Abort outcomes, and the
driver persists ABORT then ABORTDONE and exits with ErrDoneForNow. -/
theorem import_failure_aborts (env : Env) (st : MigrationStatus) (fuel iter : Nat)
    (hst : st.Phase = Phase.IMPORT)
    (hfail : (∃ e, env.exportRes = Except.error e) ∨ env.importDialRes ≠ none
      ∨ env.importRes ≠ none ∨ env.importModelDialRes ≠ none
      ∨ env.uploadRes ≠ none)
    (hk1 : env.killed iter = false) (hk2 : env.killed (iter + 1) = false)
    (hsp1 : env.setPhaseRes Phase.ABORT = none)
    (hsp2 : env.setPhaseRes Phase.ABORTDONE = none) :
    (runLoop env (fuel + 2) iter st).setPhaseCalls = [Phase.ABORT, Phase.ABORTDONE]
    ∧ (runLoop env (fuel + 2) iter st).exit = RunExit.err GoError.errDoneForNow
    ∧ (∀ (env2 : Env) (ti : TargetInfo) (mu : String),
        doABORT env2 ti mu = (Phase.ABORTDONE, none)) := by
  have e1 : dispatch env st = HandlerRes.next Phase.ABORT none := by
    have h := doIMPORT_aborts env st.TargetInfo st.ModelUUID hfail
    simp [dispatch, hst, h]
  have e2 : dispatch env { st with Phase := Phase.ABORT }
      = HandlerRes.next Phase.ABORTDONE none := by
    simp [dispatch, doABORT]
  rw [show fuel + 2 = (fuel + 1) + 1 from rfl,
    runLoop_step env (fuel + 1) iter st Phase.ABORT e1 hk1 hsp1 rfl rfl,
    runLoop_exit_terminal env fuel (iter + 1) { st with Phase := Phase.ABORT }
      Phase.ABORTDONE e2 hk2 hsp2 rfl rfl]
  exact ⟨by simp, by simp, fun env2 ti mu => rfl⟩

/-- An environment in which the model export fails. -/
def exportFailEnv : Env :=
  { baseEnv with exportRes := Except.error (GoError.msg "export failed") }

/-- Witness for C4: a failed export drives IMPORT to ABORT to ABORTDONE and
a transient exit. -/
theorem import_failure_aborts_witness :
    (runLoop exportFailEnv (0 + 2) 0 (mkStatus Phase.IMPORT)).setPhaseCalls
        = [Phase.ABORT, Phase.ABORTDONE]
    ∧ (runLoop exportFailEnv (0 + 2) 0 (mkStatus Phase.IMPORT)).exit
        = RunExit.err GoError.errDoneForNow
    ∧ (∀ (env2 : Env) (ti : TargetInfo) (mu : String),
        doABORT env2 ti mu = (Phase.ABORTDONE, none)) :=
  import_failure_aborts exportFailEnv (mkStatus Phase.IMPORT) 0 0 rfl
    (Or.inl ⟨GoError.msg "export failed", rfl⟩) rfl rfl rfl rfl

/-- Claim C10: every status handed to the SUCCESS-phase minion wait keeps the
ModelUUID, Attempt, TargetInfo and PhaseChangedTime of the status the
run loop started from — only the Phase field is ever updated — so the
wait's deadline is always computed from the original PhaseChangedTime. -/
theorem status_fields_frame (env : Env) (fuel : Nat) :
    ∀ (iter : Nat) (st s : MigrationStatus),
      s ∈ (runLoop env fuel iter st).waitStatuses →
      s.ModelUUID = st.ModelUUID ∧ s.Attempt = st.Attempt
        ∧ s.TargetInfo = st.TargetInfo ∧ s.PhaseChangedTime = st.PhaseChangedTime
        ∧ s.Phase = Phase.SUCCESS
        ∧ (waitForMinions env.minionNow s waitForAll env.minionWatchRes
            env.minionAddRes env.minionEvents).maxWait
          = maxMinionWait - (env.minionNow - st.PhaseChangedTime) := by
  induction fuel with
  | zero =>
    intro iter st s hs
    simp [runLoop] at hs
  | succ n ih =>
    intro iter st s hs
    have base : ∀ (st2 : MigrationStatus),
        s ∈ (if st2.Phase = Phase.SUCCESS then [st2] else []) →
        s.ModelUUID = st2.ModelUUID ∧ s.Attempt = st2.Attempt
          ∧ s.TargetInfo = st2.TargetInfo ∧ s.PhaseChangedTime = st2.PhaseChangedTime
          ∧ s.Phase = Phase.SUCCESS
          ∧ (waitForMinions env.minionNow s waitForAll env.minionWatchRes
              env.minionAddRes env.minionEvents).maxWait
            = maxMinionWait - (env.minionNow - st2.PhaseChangedTime) := by
      intro st2 hmem
      by_cases h2 : st2.Phase = Phase.SUCCESS
      · simp only [h2, if_pos] at hmem
        simp only [List.mem_singleton] at hmem
        subst hmem
        exact ⟨rfl, rfl, rfl, rfl, h2, by rw [waitForMinions_maxWait_eq]⟩
      · simp [h2] at hmem
    cases hd : dispatch env st with
    | stuck =>
      simp only [runLoop, hd] at hs
      exact base st hs
    | next p e =>
      cases e with
      | some err =>
        simp only [runLoop, hd] at hs
        exact base st hs
      | none =>
        cases hkk : env.killed iter with
        | true =>
          simp only [runLoop, hd, hkk, if_pos] at hs
          exact base st hs
        | false =>
          cases hsp : env.setPhaseRes p with
          | some err =>
            simp only [runLoop, hd, hkk, Bool.false_eq_true, if_neg, hsp,
              not_false_eq_true] at hs
            exact base st hs
          | none =>
            cases hm : modelHasMigrated p with
            | true =>
              simp only [runLoop, hd, hkk, hm, Bool.false_eq_true, if_neg, hsp,
                not_false_eq_true, if_pos] at hs
              exact base st hs
            | false =>
              cases ht : p.IsTerminal with
              | true =>
                simp only [runLoop, hd, hkk, hm, Bool.false_eq_true, if_neg,
                  not_false_eq_true, hsp, ht, if_pos] at hs
                exact base st hs
              | false =>
                simp only [runLoop, hd, hkk, hm, ht, Bool.false_eq_true, if_neg,
                  not_false_eq_true, hsp] at hs
                rcases List.mem_append.mp hs with h1 | h2
                · exact base st h1
                · have hrec := ih (iter + 1) { st with Phase := p } s h2
                  simpa using hrec

/-- An environment whose minion wait never resolves (no events). -/
def stuckEnv : Env := { baseEnv with minionEvents := [] }

/-- Witness for C10: a SUCCESS-phase execution records the original status
at its minion wait, with the deadline anchored to its
PhaseChangedTime. -/
theorem status_fields_frame_witness :
    mkStatus Phase.SUCCESS ∈ (runLoop stuckEnv 1 0 (mkStatus Phase.SUCCESS)).waitStatuses
    ∧ ((mkStatus Phase.SUCCESS).ModelUUID = (mkStatus Phase.SUCCESS).ModelUUID
      ∧ (mkStatus Phase.SUCCESS).Attempt = (mkStatus Phase.SUCCESS).Attempt
      ∧ (mkStatus Phase.SUCCESS).TargetInfo = (mkStatus Phase.SUCCESS).TargetInfo
      ∧ (mkStatus Phase.SUCCESS).PhaseChangedTime
        = (mkStatus Phase.SUCCESS).PhaseChangedTime
      ∧ (mkStatus Phase.SUCCESS).Phase = Phase.SUCCESS
      ∧ (waitForMinions stuckEnv.minionNow (mkStatus Phase.SUCCESS) waitForAll
          stuckEnv.minionWatchRes stuckEnv.minionAddRes stuckEnv.minionEvents).maxWait
        = maxMinionWait - (stuckEnv.minionNow - (mkStatus Phase.SUCCESS).PhaseChangedTime)) :=
  ⟨by decide,
    status_fields_frame stuckEnv 1 0 (mkStatus Phase.SUCCESS) (mkStatus Phase.SUCCESS)
      (by decide)⟩

end MigrationMaster
